import Mathlib

/-!
Verification of the MCP Dockmaster server registry and proxy core.

The development shallowly embeds the Rust sources:
  * `mcp_proxy.rs`   — stdio JSON-RPC conduit, tool registry operations;
  * `database.rs`    — the persistence store (`save_tool`, `get_all_tools`);
  * `http_server/handlers.rs` — the JSON-RPC gateway and the catalog cache.

Serde JSON values are modelled by the inductive `Json`; child stdio I/O is
modelled by the outcome the reading side observes (`ChildRead`); the SQLite
tables are modelled as lists of row records; the catalog cache is modelled
as an explicit state threaded through `fetchToolFromRegistry`.
-/

namespace Dockmaster

/-- Model of `serde_json::Value`.  Objects keep their fields as an
association list; numbers are integers (no claim depends on number
precision). -/
inductive Json where
  | null : Json
  | bool : Bool → Json
  | num : Int → Json
  | str : String → Json
  | arr : List Json → Json
  | obj : List (String × Json) → Json
deriving Repr

mutual

/-- Decidable equality for `Json` (the nested inductive defeats the
automatic derivation). -/
def Json.decEq : (a b : Json) → Decidable (a = b)
  | .null, .null => .isTrue rfl
  | .bool x, .bool y =>
    if h : x = y then .isTrue (by rw [h])
    else .isFalse (by intro hh; cases hh; exact h rfl)
  | .num x, .num y =>
    if h : x = y then .isTrue (by rw [h])
    else .isFalse (by intro hh; cases hh; exact h rfl)
  | .str x, .str y =>
    if h : x = y then .isTrue (by rw [h])
    else .isFalse (by intro hh; cases hh; exact h rfl)
  | .arr xs, .arr ys =>
    match Json.decEqList xs ys with
    | .isTrue h => .isTrue (by rw [h])
    | .isFalse h => .isFalse (by intro hh; cases hh; exact h rfl)
  | .obj xs, .obj ys =>
    match Json.decEqFields xs ys with
    | .isTrue h => .isTrue (by rw [h])
    | .isFalse h => .isFalse (by intro hh; cases hh; exact h rfl)
  | .null, .bool _ | .null, .num _ | .null, .str _ | .null, .arr _ | .null, .obj _
  | .bool _, .null | .bool _, .num _ | .bool _, .str _ | .bool _, .arr _ | .bool _, .obj _
  | .num _, .null | .num _, .bool _ | .num _, .str _ | .num _, .arr _ | .num _, .obj _
  | .str _, .null | .str _, .bool _ | .str _, .num _ | .str _, .arr _ | .str _, .obj _
  | .arr _, .null | .arr _, .bool _ | .arr _, .num _ | .arr _, .str _ | .arr _, .obj _
  | .obj _, .null | .obj _, .bool _ | .obj _, .num _ | .obj _, .str _ | .obj _, .arr _ =>
    .isFalse (by intro hh; cases hh)

/-- Decidable equality for lists of `Json`. -/
def Json.decEqList : (a b : List Json) → Decidable (a = b)
  | [], [] => .isTrue rfl
  | [], _ :: _ => .isFalse (by intro hh; cases hh)
  | _ :: _, [] => .isFalse (by intro hh; cases hh)
  | x :: xs, y :: ys =>
    match Json.decEq x y with
    | .isFalse h => .isFalse (by intro hh; cases hh; exact h rfl)
    | .isTrue h1 =>
      match Json.decEqList xs ys with
      | .isTrue h2 => .isTrue (by rw [h1, h2])
      | .isFalse h => .isFalse (by intro hh; cases hh; exact h rfl)

/-- Decidable equality for object field lists. -/
def Json.decEqFields : (a b : List (String × Json)) → Decidable (a = b)
  | [], [] => .isTrue rfl
  | [], _ :: _ => .isFalse (by intro hh; cases hh)
  | _ :: _, [] => .isFalse (by intro hh; cases hh)
  | (k1, v1) :: xs, (k2, v2) :: ys =>
    if hk : k1 = k2 then
      match Json.decEq v1 v2 with
      | .isFalse h => .isFalse (by intro hh; cases hh; exact h rfl)
      | .isTrue hv =>
        match Json.decEqFields xs ys with
        | .isTrue ht => .isTrue (by rw [hk, hv, ht])
        | .isFalse h => .isFalse (by intro hh; cases hh; exact h rfl)
    else .isFalse (by intro hh; cases hh; exact hk rfl)

end

instance : DecidableEq Json := Json.decEq

/-- Key lookup in an association list, first match wins.  Models both
`serde_json::Map::get` and `HashMap::get`. -/
def assocLookup {α : Type} : List (String × α) → String → Option α
  | [], _ => none
  | (k, v) :: rest, key => if k = key then some v else assocLookup rest key

/-- Insert-or-overwrite into an association list.  Models both
`serde_json::Map::insert` and `HashMap::insert`. -/
def assocInsert {α : Type} : List (String × α) → String → α → List (String × α)
  | [], key, v => [(key, v)]
  | (k, w) :: rest, key, v =>
    if k = key then (k, v) :: rest else (k, w) :: assocInsert rest key v

/-- `Value::get(key)`: `Some` only on objects that carry the key. -/
def Json.get : Json → String → Option Json
  | .obj fields, key => assocLookup fields key
  | _, _ => none

/-- `Value::as_array()`. -/
def Json.asArr : Json → Option (List Json)
  | .arr xs => some xs
  | _ => none

/-- `Value::as_str()`. -/
def Json.asStr : Json → Option String
  | .str s => some s
  | _ => none

/-- `Value::as_i64()`. -/
def Json.asInt : Json → Option Int
  | .num n => some n
  | _ => none

/-! ## RPC conduit (`mcp_proxy.rs`)

A request/reply exchange with a child process is modelled by what the
reading side observes after the request was written: end of file, a
timeout, a read error, or one parsed JSON line. -/

/-- Outcome observed when reading the reply line from a child process. -/
inductive ChildRead where
  | closed : ChildRead
  | timedOut : ChildRead
  | readErr : String → ChildRead
  | reply : Json → ChildRead
deriving Repr, DecidableEq

/-- `MCPError` (per `execute_server_tool`).  The source renders the
child error value to a string via `to_string()`; the model carries the
JSON value itself. -/
inductive MCPError where
  | serverNotFound : String → MCPError
  | serverClosedConnection : MCPError
  | stdoutReadError : String → MCPError
  | timeoutError : String → MCPError
  | noResponse : MCPError
  | jsonParseError : String → MCPError
  | toolExecutionError : Json → MCPError
  | noResultField : MCPError
deriving Repr, DecidableEq

/-- The JSON-RPC request issued by `execute_server_tool`
(`mcp_proxy.rs:147`): method `tools/call`, params `{name, arguments}`,
id `execute_{server}_{tool}`. -/
def executeCmd (serverId toolName : String) (parameters : Json) : Json :=
  .obj [("jsonrpc", .str "2.0"),
        ("id", .str ("execute_" ++ serverId ++ "_" ++ toolName)),
        ("method", .str "tools/call"),
        ("params", .obj [("name", .str toolName), ("arguments", parameters)])]

/-- `execute_server_tool` (`mcp_proxy.rs:136-198`): `running` models
whether `process_ios` holds the server; the request written to the
child stdin is `executeCmd serverId toolName parameters`; `read` models
the reply line observed within the 30 s timeout. -/
def executeServerTool (serverId toolName : String) (parameters : Json)
    (running : Bool) (read : ChildRead) : Except MCPError Json :=
  -- written request: `executeCmd serverId toolName parameters`
  if running then
    match read with
    | .closed => .error .serverClosedConnection
    | .timedOut => .error (.timeoutError serverId)
    | .readErr m => .error (.stdoutReadError m)
    | .reply response =>
      match response.get "error" with
      | some e => .error (.toolExecutionError e)
      | none =>
        match response.get "result" with
        | some r => .ok r
        | none => .error .noResultField
  else
    .error (.serverNotFound serverId)

/-- `discover_server_tools` (`mcp_proxy.rs:21-133`) after the
`tools/list` request was written: the 10 s read outcome is `read`. -/
def discoverServerTools (serverId : String) (running : Bool) (read : ChildRead) :
    Except String (List Json) :=
  if running then
    match read with
    | .closed => .error "Server process closed connection"
    | .timedOut => .error ("Timeout waiting for response from server " ++ serverId)
    | .readErr m => .error ("Failed to read from process stdout: " ++ m)
    | .reply response =>
      if (response.get "error").isSome then
        .error "Server returned error"
      else
        match response.get "result" with
        | some result =>
          match result.asArr with
          | some xs => .ok xs
          | none =>
            match result.get "tools" with
            | some tools =>
              match tools.asArr with
              | some xs => .ok xs
              | none => .ok [result]
            | none => .ok [result]
        | none =>
          match response.get "tools" with
          | some tools =>
            match tools.asArr with
            | some xs => .ok xs
            | none => .ok []
          | none => .ok []
  else
    .error ("Server " ++ serverId ++ " not found or not running")

/-! ## Proxy-id routing (`execute_proxy_tool`, `mcp_proxy.rs:645-682`) -/

/-- Rust `str::split(':')` on a character list: `n` colons yield `n + 1`
parts. -/
def splitOnColon : List Char → List (List Char)
  | [] => [[]]
  | c :: rest =>
    if c = ':' then
      [] :: splitOnColon rest
    else
      match splitOnColon rest with
      | [] => [[c]]
      | part :: parts => (c :: part) :: parts

/-- `ToolExecutionResponse` (`models.rs`, as used by
`execute_proxy_tool`). -/
structure ToolExecutionResponse where
  success : Bool
  result : Option Json
  error : Option String
deriving Repr, DecidableEq

/-- Rendering of `MCPError` used when `execute_proxy_tool` turns an
execution error into `response.error` via `e.to_string()`.  The exact
display strings live in the error type declaration outside `src/`; only
presence of the message matters to the cited code. -/
def MCPError.message : MCPError → String
  | .serverNotFound id => "Server not found: " ++ id
  | .serverClosedConnection => "Server closed connection"
  | .stdoutReadError m => "Failed to read from stdout: " ++ m
  | .timeoutError id => "Timeout waiting for response from server " ++ id
  | .noResponse => "No response from server"
  | .jsonParseError m => "Failed to parse response as JSON: " ++ m
  | .toolExecutionError _ => "Tool execution error"
  | .noResultField => "No result field in response"

/-- `execute_proxy_tool` (`mcp_proxy.rs:645-682`): split the supplied
`tool_id` on `:`; on exactly two parts dispatch to
`execute_server_tool` with the two parts, otherwise fail before
touching the registry.  `running` and `read` model the child
interaction the dispatched call would observe. -/
def executeProxyTool (running : Bool) (read : ChildRead) (toolId : String)
    (parameters : Json) : Except String ToolExecutionResponse :=
  match splitOnColon toolId.data with
  | [serverPart, toolPart] =>
    match executeServerTool (String.mk serverPart) (String.mk toolPart)
        parameters running read with
    | .ok result => .ok ⟨true, some result, none⟩
    | .error e => .ok ⟨false, none, some e.message⟩
  | _ => .error "Invalid tool_id format. Expected server_id:tool_id"

/-! ## Tool registry (`mcp_proxy.rs`, state from `registry.rs`) -/

namespace Models

/-- `models::models::ToolConfig` (env vars plus optional launch
override), as mutated by `update_tool_config`. -/
structure ToolConfig where
  env : Option (List (String × String))
  command : Option String
  args : Option (List String)
deriving Repr, DecidableEq

/-- `models::models::ToolConfiguration` (launch command). -/
structure ToolConfiguration where
  command : String
  args : Option (List String)
deriving Repr, DecidableEq

/-- `models::models::Tool`: the in-memory registry record
(`registry.tools` values). -/
structure Tool where
  name : String
  description : String
  enabled : Bool
  tool_type : String
  entry_point : Option String
  configuration : Option ToolConfiguration
  distribution : Option Json
  config : Option ToolConfig
  authentication : Option Json
deriving Repr, DecidableEq

end Models

/-- The in-memory registry state (`registry.rs` fields used by
`mcp_proxy.rs`): the record map, the per-server discovered tool lists,
and whether a process handle is held per server.  Pipe handles
(`process_ios`) are represented by the `running` flags fed to the
conduit functions. -/
structure ToolRegistry where
  tools : List (String × Models.Tool)
  server_tools : List (String × List Json)
  processes : List (String × Bool)
deriving Repr, DecidableEq

/-! ### `list_all_server_tools` (`mcp_proxy.rs:565-594`) -/

/-- The child-local id used for the proxy id:
`tool.get("id").and_then(as_str).unwrap_or("")`. -/
def toolIdStr (tool : Json) : String :=
  ((tool.get "id").bind Json.asStr).getD ""

/-- One aggregated entry: copy the tool fields, then insert `server_id`
and `proxy_id = "{server_id}:{tool.id}"`. -/
def mkToolEntry (serverId : String) (tool : Json) : Json :=
  let fields := match tool with
    | .obj fs => fs
    | _ => []
  let fields := assocInsert fields "server_id" (.str serverId)
  let fields := assocInsert fields "proxy_id"
    (.str (serverId ++ ":" ++ toolIdStr tool))
  .obj fields

/-- `list_all_server_tools`: flatten `server_tools` into aggregated
entries. -/
def listAllServerTools (server_tools : List (String × List Json)) : List Json :=
  server_tools.flatMap (fun p => p.2.map (mkToolEntry p.1))

/-- The proxy ids of the aggregated entries, in emission order. -/
def proxyIds (server_tools : List (String × List Json)) : List String :=
  server_tools.flatMap (fun p => p.2.map (fun t => p.1 ++ ":" ++ toolIdStr t))

/-! ### `register_tool` discovery fallback (`mcp_proxy.rs:396-458`) -/

/-- Outcome of the post-spawn discovery attempt: `ok` is
`discover_server_tools` returning within the 15 s budget, `failed` its
error, `timedOut` the budget elapsing. -/
inductive DiscoveryOutcome where
  | ok : List Json → DiscoveryOutcome
  | failed : String → DiscoveryOutcome
  | timedOut : DiscoveryOutcome
deriving Repr, DecidableEq

/-- The synthetic descriptor installed when discovery fails or reports
no tools (`mcp_proxy.rs:420-424`). -/
def defaultMainTool (toolName description : String) : Json :=
  .obj [("id", .str "main"), ("name", .str toolName),
        ("description", .str description)]

/-- `register_tool` after a successful spawn (`mcp_proxy.rs:384-458`):
the tool record and an empty tool list were inserted; the discovery
outcome then determines the final `server_tools` entry. -/
def registerToolFinish (registry : ToolRegistry) (toolId : String)
    (tool : Models.Tool) (outcome : DiscoveryOutcome) : ToolRegistry :=
  let registry :=
    { registry with
        tools := assocInsert registry.tools toolId tool
        server_tools := assocInsert registry.server_tools toolId []
        processes := assocInsert registry.processes toolId true }
  match outcome with
  | .ok tools =>
    let registry :=
      { registry with
          server_tools := assocInsert registry.server_tools toolId tools }
    if tools.isEmpty then
      { registry with
          server_tools := assocInsert registry.server_tools toolId
            [defaultMainTool tool.name tool.description] }
    else
      registry
  | .failed _ =>
    { registry with
        server_tools := assocInsert registry.server_tools toolId
          [defaultMainTool tool.name tool.description] }
  | .timedOut =>
    { registry with
        server_tools := assocInsert registry.server_tools toolId
          [defaultMainTool tool.name tool.description] }

/-! ### Configuration updates (`mcp_proxy.rs:685-847`) -/

/-- `ToolUpdateResponse` / `ToolConfigUpdateResponse` payload. -/
structure UpdateResponse where
  success : Bool
  message : String
deriving Repr, DecidableEq

/-- The in-place mutation `update_tool_config` performs on a tool
record (`mcp_proxy.rs:797-826`): materialise `config` and `config.env`,
then merge the requested pairs into the env map. -/
def applyEnvUpdate (tool : Models.Tool)
    (reqEnv : Option (List (String × String))) : Models.Tool :=
  let c0 := tool.config.getD ⟨some [], none, none⟩
  let env0 := c0.env.getD []
  let env1 := match reqEnv with
    | some pairs => pairs.foldl (fun acc kv => assocInsert acc kv.1 kv.2) env0
    | none => env0
  { tool with config := some { c0 with env := some env1 } }

/-- `update_tool_config` (`mcp_proxy.rs:768-847`).  `saveOutcome` is the
result of the subsequent `ToolRegistry::save_mcp_state` call on the
already-mutated state; the source logs a failure and continues
(`mcp_proxy.rs:832-840`), so neither the returned registry nor the
response depends on it. -/
def updateToolConfig (state : ToolRegistry) (toolId : String)
    (reqEnv : Option (List (String × String)))
    (saveOutcome : Except String Unit) : ToolRegistry × UpdateResponse :=
  match assocLookup state.tools toolId with
  | none => (state, ⟨false, "Tool with ID " ++ toolId ++ " not found"⟩)
  | some tool =>
    let state1 :=
      { state with tools := assocInsert state.tools toolId (applyEnvUpdate tool reqEnv) }
    -- `save_mcp_state` is called on `state1`; its outcome `saveOutcome`
    -- is ignored.
    (state1, ⟨true, "Tool " ++ toolId ++ " configuration updated"⟩)

/-- `update_tool_status` (`mcp_proxy.rs:685-765`).  The enabled flag is
set in the in-memory map first; when enabling, `restart_tool` runs with
outcome `restartOutcome` (its process bookkeeping lives outside the
`tools` map); `save_mcp_state` then runs on the mutated state with
outcome `saveOutcome`, which the source logs and ignores. -/
def updateToolStatus (state : ToolRegistry) (toolId : String) (enabled : Bool)
    (restartOutcome : Except String Unit)
    (saveOutcome : Except String Unit) : ToolRegistry × UpdateResponse :=
  match assocLookup state.tools toolId with
  | none => (state, ⟨false, "Tool with ID " ++ toolId ++ " not found"⟩)
  | some tool =>
    let state1 :=
      { state with
          tools := assocInsert state.tools toolId { tool with enabled := enabled } }
    let result : Except String Unit := if enabled then restartOutcome else .ok ()
    match result with
    | .error e => (state1, ⟨false, e⟩)
    | .ok () =>
      -- `save_mcp_state` outcome `saveOutcome` ignored here as well.
      (state1,
        ⟨true, "Tool " ++ toolId ++ " status updated to "
          ++ (if enabled then "enabled" else "disabled")⟩)

/-! ## Persistence store (`database.rs`)

The two SQLite tables are modelled as lists of row records; the `tools`
primary key is maintained by the upsert. -/

namespace Types

/-- `models::types::ToolEnvironment`: one env-map entry
`{value, description, required}` (the value field is named `default`
in the source). -/
structure ToolEnvironment where
  description : String
  default : Option String
  required : Bool
deriving Repr, DecidableEq

/-- `models::types::ToolConfiguration` as read and written by
`database.rs`. -/
structure ToolConfiguration where
  command : String
  args : Option (List String)
  env : Option (List (String × ToolEnvironment))
deriving Repr, DecidableEq

/-- `models::types::Distribution` `{type, package}`. -/
structure Distribution where
  type : String
  package : String
deriving Repr, DecidableEq

/-- `models::types::Tool`: the persistent Server Record.  `config` and
`env_configs` are transient fields that `save_tool` never writes and
`get_all_tools` always restores as `none`; their payload type is
irrelevant to the store, so the model uses `Json`. -/
structure Tool where
  name : String
  description : String
  enabled : Bool
  tool_type : String
  entry_point : Option String
  configuration : Option ToolConfiguration
  distribution : Option Distribution
  config : Option Json
  env_configs : Option Json
deriving Repr, DecidableEq

end Types

/-- A row of the `tools` table (`models::tool_db::DBTool`).  The `args`
column stores `serde_json::to_string` of the vector and is read back
with `serde_json::from_str`; as that round trip is the identity on
string vectors, the model carries the parsed value. -/
structure DBTool where
  id : String
  name : String
  description : String
  tool_type : String
  enabled : Bool
  entry_point : Option String
  command : Option String
  args : Option (List String)
  distribution_type : Option String
  distribution_package : Option String
deriving Repr, DecidableEq

/-- A row of the `tool_env` table (`models::tool_db::DBToolEnv`). -/
structure DBToolEnv where
  tool_id : String
  env_key : String
  env_value : String
  env_description : String
  env_required : Bool
deriving Repr, DecidableEq

/-- The database state: the two tables. -/
structure DB where
  tools : List DBTool
  tool_env : List DBToolEnv
deriving Repr, DecidableEq

/-- The `tools` row written by `save_tool` (`database.rs:250-292`):
`command` is NULL when the configured command is empty, `args` and the
distribution columns mirror the optional configuration. -/
def toolUpsertRow (toolId : String) (tool : Types.Tool) : DBTool :=
  let commandStr := (tool.configuration.map (fun c => c.command)).getD ""
  { id := toolId
    name := tool.name
    description := tool.description
    tool_type := tool.tool_type
    enabled := tool.enabled
    entry_point := tool.entry_point
    command := if commandStr = "" then none else some commandStr
    args := tool.configuration.bind (fun c => c.args)
    distribution_type := tool.distribution.map (fun d => d.type)
    distribution_package := tool.distribution.map (fun d => d.package) }

/-- `INSERT ... ON CONFLICT (id) DO UPDATE`
(`database.rs:295-301`): replace the row carrying the primary key, or
append. -/
def upsertToolRow : List DBTool → DBTool → List DBTool
  | [], row => [row]
  | r :: rest, row =>
    if r.id = row.id then row :: rest else r :: upsertToolRow rest row

/-- The `tool_env` rows `save_tool` inserts (`database.rs:310-324`):
one per env entry, the value column holding
`v.default.clone().unwrap_or_default()`. -/
def envRowsOf (toolId : String) (tool : Types.Tool) : List DBToolEnv :=
  match tool.configuration with
  | none => []
  | some config =>
    match config.env with
    | none => []
    | some env =>
      env.map (fun kv =>
        { tool_id := toolId
          env_key := kv.1
          env_value := kv.2.default.getD ""
          env_description := kv.2.description
          env_required := kv.2.required })

/-- `save_tool` (`database.rs:243-336`): upsert the server row, delete
all env rows of the id, insert the fresh env rows. -/
def saveTool (db : DB) (toolId : String) (tool : Types.Tool) : DB :=
  { tools := upsertToolRow db.tools (toolUpsertRow toolId tool)
    tool_env := db.tool_env.filter (fun r => r.tool_id ≠ toolId)
      ++ envRowsOf toolId tool }

/-- An env-map entry as reconstructed from a row
(`database.rs:192-196`): the stored value comes back as
`default = Some value`. -/
def envOfRow (r : DBToolEnv) : Types.ToolEnvironment :=
  { description := r.env_description
    default := some r.env_value
    required := r.env_required }

/-- Grouping of all env rows by tool id (`database.rs:189-197`):
per-tool maps are built by key-overwriting inserts. -/
def buildEnvGroup (rows : List DBToolEnv) :
    List (String × List (String × Types.ToolEnvironment)) :=
  rows.foldl
    (fun groups r =>
      let g := (assocLookup groups r.tool_id).getD []
      assocInsert groups r.tool_id (assocInsert g r.env_key (envOfRow r)))
    []

/-- `HashMap::remove` on a grouping. -/
def assocRemove {α : Type} (l : List (String × α)) (key : String) :
    List (String × α) :=
  l.filter (fun p => p.1 ≠ key)

/-- Domain `Tool` reconstructed from a row and its env map
(`database.rs:199-234`): the configuration is always materialised, an
empty env map becomes `none`, the transient fields come back `none`. -/
def dbToolToTool (row : DBTool)
    (env : List (String × Types.ToolEnvironment)) : Types.Tool :=
  { name := row.name
    description := row.description
    enabled := row.enabled
    tool_type := row.tool_type
    entry_point := row.entry_point
    configuration := some
      { command := row.command.getD ""
        args := row.args
        env := if env = [] then none else some env }
    distribution :=
      match row.distribution_type with
      | some t => some { type := t, package := row.distribution_package.getD "" }
      | none => none
    config := none
    env_configs := none }

/-- The per-row loop of `get_all_tools` (`database.rs:200-237`),
threading `env_map_by_tool.remove`. -/
def getAllToolsGo : List DBTool →
    List (String × List (String × Types.ToolEnvironment)) →
    List (String × Types.Tool)
  | [], _ => []
  | row :: rest, groups =>
    let env := (assocLookup groups row.id).getD []
    (row.id, dbToolToTool row env) :: getAllToolsGo rest (assocRemove groups row.id)

/-- `get_all_tools` (`database.rs:171-240`). -/
def getAllTools (db : DB) : List (String × Types.Tool) :=
  getAllToolsGo db.tools (buildEnvGroup db.tool_env)

/-! ### Statement/transaction trace of the store

Each `execute(&mut conn)` issued outside `conn.transaction` runs as its
own auto-committed SQLite transaction.  The trace records, per
transaction, the statements it contains. -/

/-- The SQL statements the cited store operations issue. -/
inductive DbStatement where
  | upsertServerRow : DBTool → DbStatement
  | deleteEnvRows : String → DbStatement
  | insertEnvRows : List DBToolEnv → DbStatement
  | deleteAllEnv : DbStatement
  | deleteAllTools : DbStatement
  | deleteAllServerTools : DbStatement
deriving Repr, DecidableEq

/-- The transaction trace of `save_tool` (`database.rs:294-333`): three
separate `execute` calls, none wrapped in `conn.transaction`, the env
insert issued only when the fresh row set is nonempty. -/
def saveToolTxns (toolId : String) (tool : Types.Tool) :
    List (List DbStatement) :=
  [[.upsertServerRow (toolUpsertRow toolId tool)], [.deleteEnvRows toolId]]
    ++ (if envRowsOf toolId tool = [] then []
        else [[.insertEnvRows (envRowsOf toolId tool)]])

/-- The transaction trace of `clear_database` (`database.rs:360-387`),
which by contrast wraps its deletes in one `conn.transaction`. -/
def clearDatabaseTxns : List (List DbStatement) :=
  [[.deleteAllEnv, .deleteAllTools, .deleteAllServerTools]]

/-- Whether a statement is the env-row delete of a given tool id. -/
def DbStatement.isDeleteEnv (toolId : String) : DbStatement → Bool
  | .deleteEnvRows id => id = toolId
  | _ => false

/-- Whether a statement inserts env rows. -/
def DbStatement.isInsertEnv : DbStatement → Bool
  | .insertEnvRows _ => true
  | _ => false

/-! ## JSON-RPC gateway (`http_server/handlers.rs`) -/

/-- `JsonRpcError` (`handlers.rs:61-65`); the claims make no use of
`data`, which the dispatcher always sets to `None`. -/
structure JsonRpcError where
  code : Int
  message : String
deriving Repr, DecidableEq

/-- `JsonRpcResponse` (`handlers.rs:52-57`). -/
structure JsonRpcResponse where
  jsonrpc : String
  id : Json
  result : Option Json
  error : Option JsonRpcError
deriving Repr, DecidableEq

/-- The error objects the handlers build via `json!`. -/
def rpcError (code : Int) (msg : String) : Json :=
  .obj [("code", .num code), ("message", .str msg)]

/-- `ServerToolInfo` as consulted by `handle_invoke_tool`
(`handlers.rs:560-572`): only `id` and `name` are read. -/
structure ServerToolInfo where
  id : String
  name : String
deriving Repr, DecidableEq

/-- The server search of `handle_invoke_tool` (`handlers.rs:557-577`):
first server whose tool list contains a tool matching the requested
name by `id` or by `name`. -/
def findToolServer (serverTools : List (String × List ServerToolInfo))
    (toolName : String) : Option String :=
  match serverTools.find?
      (fun p => p.2.any (fun t => t.id = toolName || t.name = toolName)) with
  | some p => some p.1
  | none => none

/-- `handle_invoke_tool` (`handlers.rs:538-612`): resolve the tool name
to a server, build the proxy id `server:name`, run
`execute_proxy_tool`.  `running` and `read` model the child interaction
of the dispatched execution. -/
def handleInvokeTool (serverTools : List (String × List ServerToolInfo))
    (running : Bool) (read : ChildRead) (params : Json) : Except Json Json :=
  match (params.get "name").bind Json.asStr with
  | none => .error (rpcError (-32602) "Missing name in parameters")
  | some toolName =>
    let arguments := (params.get "arguments").getD (.obj [])
    match findToolServer serverTools toolName with
    | none => .error (rpcError (-32601) ("Tool " ++ toolName ++ " not found"))
    | some serverId =>
      match executeProxyTool running read (serverId ++ ":" ++ toolName) arguments with
      | .ok resp =>
        if resp.success then .ok (resp.result.getD .null)
        else .error (rpcError (-32000) (resp.error.getD "Unknown error"))
      | .error e =>
        .error (rpcError (-32000) ("Failed to execute tool: " ++ e))

/-- State and collaborator outcomes of the gateway dispatcher.  The
handlers for `tools/list`, `tools/hidden`, `registry/list`,
`registry/install`, `registry/import` and `server/config` depend on the
core extension and the network (outside `src/`); their outcomes are
carried as explicit fields. -/
structure GatewayState where
  serverTools : List (String × List ServerToolInfo)
  running : Bool
  read : ChildRead
  listToolsOutcome : Except Json Json
  toolsHiddenOutcome : Except Json Json
  registryListOutcome : Except Json Json
  registryInstallOutcome : Except Json Json
  registryImportOutcome : Except Json Json
  serverConfigOutcome : Except Json Json

/-- The method dispatch of `handle_mcp_request`
(`handlers.rs:114-190`). -/
def dispatchMcpRequest (st : GatewayState) (method : String)
    (params : Option Json) : Except Json Json :=
  if method = "tools/list" then st.listToolsOutcome
  else if method = "tools/hidden" then st.toolsHiddenOutcome
  else if method = "tools/call" then
    match params with
    | some p => handleInvokeTool st.serverTools st.running st.read p
    | none => .error (rpcError (-32602) "Missing parameters")
  else if method = "prompts/list" then .ok (.obj [("prompts", .arr [])])
  else if method = "resources/list" then .ok (.obj [("resources", .arr [])])
  else if method = "resources/read" then
    match params with
    | some _ => .error (rpcError (-32601) "Resource reading not implemented yet")
    | none =>
      .error (rpcError (-32602)
        "Invalid params - missing parameters for resource reading")
  else if method = "prompts/get" then
    match params with
    | some _ => .error (rpcError (-32601) "Prompt retrieval not implemented yet")
    | none =>
      .error (rpcError (-32602)
        "Invalid params - missing parameters for prompt retrieval")
  else if method = "registry/install" then
    match params with
    | some _ => st.registryInstallOutcome
    | none => .error (rpcError (-32602) "Missing parameters for tool installation")
  else if method = "registry/import" then
    match params with
    | some _ => st.registryImportOutcome
    | none => .error (rpcError (-32602) "Missing parameters for server import")
  else if method = "registry/list" then st.registryListOutcome
  else if method = "server/config" then
    match params with
    | some _ => st.serverConfigOutcome
    | none =>
      .error (rpcError (-32602)
        "Invalid params - missing parameters for server config")
  else .error (rpcError (-32601) ("Method " ++ method ++ " not found"))

/-- `handle_mcp_request` (`handlers.rs:108-220`): dispatch, then wrap
in the response envelope.  On an error value the source reads `code`
with default `-32000` and `message` with default `Unknown error`
(`handlers.rs:199-217`). -/
def handleMcpRequest (st : GatewayState) (id : Json) (method : String)
    (params : Option Json) : JsonRpcResponse :=
  match dispatchMcpRequest st method params with
  | .ok v => { jsonrpc := "2.0", id := id, result := some v, error := none }
  | .error e =>
    { jsonrpc := "2.0", id := id, result := none,
      error := some
        { code := ((e.get "code").bind Json.asInt).getD (-32000)
          message := ((e.get "message").bind Json.asStr).getD "Unknown error" } }

/-! ## Catalog client (`fetch_tool_from_registry`, `handlers.rs:406-478`) -/

/-- `RegistryCache` (`handlers.rs:88-91`): the serialised last payload
and its `Instant`.  Time is modelled in seconds; the serde round trip
through `to_value`/`from_value` is the identity on the payload type, so
`data` carries the payload value. -/
structure RegistryCache where
  data : Option Json
  timestamp : Option Nat
deriving Repr, DecidableEq

/-- `CACHE_DURATION` (`handlers.rs:102`): 60 s. -/
def CACHE_DURATION : Nat := 60

/-- The refetch path of `fetch_tool_from_registry`
(`handlers.rs:430-477`): `fetchOutcome` is the network+parse result; on
success the cache is overwritten, on failure it is left untouched.  The
returned flag records that the network was hit. -/
def fetchFresh (cache : RegistryCache) (now : Nat)
    (fetchOutcome : Except String Json) :
    Except String Json × RegistryCache × Bool :=
  match fetchOutcome with
  | .error e => (.error ("Failed to fetch tools from registry: " ++ e), cache, true)
  | .ok payload => (.ok payload, ⟨some payload, some now⟩, true)

/-- `fetch_tool_from_registry` (`handlers.rs:406-478`): serve from the
cache when both fields are set and the entry is younger than
`CACHE_DURATION`, otherwise refetch. -/
def fetchToolFromRegistry (cache : RegistryCache) (now : Nat)
    (fetchOutcome : Except String Json) :
    Except String Json × RegistryCache × Bool :=
  match cache.data, cache.timestamp with
  | some d, some t =>
    if now - t < CACHE_DURATION then (.ok d, cache, false)
    else fetchFresh cache now fetchOutcome
  | some _, none => fetchFresh cache now fetchOutcome
  | none, some _ => fetchFresh cache now fetchOutcome
  | none, none => fetchFresh cache now fetchOutcome

/-! ## Shared lemmas -/

theorem assocLookup_insert {α : Type} (l : List (String × α)) (k : String) (v : α) :
    assocLookup (assocInsert l k v) k = some v := by
  induction l with
  | nil => simp [assocInsert, assocLookup]
  | cons p rest ih =>
    obtain ⟨pk, pv⟩ := p
    by_cases h : pk = k
    · simp [assocInsert, h, assocLookup]
    · simp [assocInsert, h, assocLookup, ih]

theorem assocLookup_insert_ne {α : Type} (l : List (String × α)) (k k' : String)
    (v : α) (h : k' ≠ k) :
    assocLookup (assocInsert l k v) k' = assocLookup l k' := by
  induction l with
  | nil => simp [assocInsert, assocLookup, Ne.symm h]
  | cons p rest ih =>
    obtain ⟨pk, pv⟩ := p
    by_cases hp : pk = k
    · subst hp
      simp [assocInsert, assocLookup, Ne.symm h]
    · by_cases hp' : pk = k'
      · subst hp'
        simp [assocInsert, h, assocLookup]
      · simp [assocInsert, hp, assocLookup, hp', ih]

/-! ## Claim theorems -/

/-- Claim C1: `execute_server_tool` issues a `tools/call` request with
params `{name, arguments}`; on a reply carrying an `error` field it
returns `ToolExecutionError` with that error, otherwise it returns the
reply's `result` field verbatim. -/
theorem execute_server_tool_spec (serverId toolName : String) (parameters : Json)
    (response : Json) :
    ((executeCmd serverId toolName parameters).get "method"
        = some (.str "tools/call")
      ∧ (executeCmd serverId toolName parameters).get "params"
          = some (.obj [("name", .str toolName), ("arguments", parameters)]))
    ∧ (∀ e, response.get "error" = some e →
        executeServerTool serverId toolName parameters true (.reply response)
          = .error (.toolExecutionError e))
    ∧ (response.get "error" = none →
        ∀ r, response.get "result" = some r →
          executeServerTool serverId toolName parameters true (.reply response)
            = .ok r) := by
  refine ⟨⟨by simp [executeCmd, Json.get, assocLookup],
            by simp [executeCmd, Json.get, assocLookup]⟩, ?_, ?_⟩
  · intro e he
    simp [executeServerTool, he]
  · intro hn r hr
    simp [executeServerTool, hn, hr]

/-- Witness for C1 at concrete replies: one carrying an error, one
carrying a result. -/
theorem execute_server_tool_spec_witness :
    executeServerTool "s" "t" .null true (.reply (.obj [("error", .str "boom")]))
      = .error (.toolExecutionError (.str "boom"))
    ∧ executeServerTool "s" "t" .null true (.reply (.obj [("result", .num 7)]))
      = .ok (.num 7) :=
  ⟨(execute_server_tool_spec "s" "t" .null (.obj [("error", .str "boom")])).2.1
      (.str "boom") (by decide),
   (execute_server_tool_spec "s" "t" .null (.obj [("result", .num 7)])).2.2
      (by decide) (.num 7) (by decide)⟩

/-- Claim C2: the reply-shape tolerance of `discover_server_tools`: an
array `result` is returned as is; an object `result` with a `tools`
array yields that array; any other present `result` is wrapped as a
singleton; with `result` absent a top-level `tools` array is used; and
otherwise the empty list is returned rather than an error. -/
theorem discover_server_tools_spec (serverId : String) (response : Json)
    (hne : response.get "error" = none) :
    (∀ xs, response.get "result" = some (.arr xs) →
        discoverServerTools serverId true (.reply response) = .ok xs)
    ∧ (∀ r xs, response.get "result" = some r →
        r.get "tools" = some (.arr xs) →
        discoverServerTools serverId true (.reply response) = .ok xs)
    ∧ (∀ r, response.get "result" = some r → r.asArr = none →
        (r.get "tools").bind Json.asArr = none →
        discoverServerTools serverId true (.reply response) = .ok [r])
    ∧ (∀ xs, response.get "result" = none →
        response.get "tools" = some (.arr xs) →
        discoverServerTools serverId true (.reply response) = .ok xs)
    ∧ (response.get "result" = none →
        (response.get "tools").bind Json.asArr = none →
        discoverServerTools serverId true (.reply response) = .ok []) := by
  refine ⟨?_, ?_, ?_, ?_, ?_⟩
  · intro xs hr
    simp [discoverServerTools, hne, hr, Json.asArr]
  · intro r xs hr ht
    have harr : r.asArr = none := by
      cases r <;> first | rfl | simp [Json.get] at ht
    simp [discoverServerTools, hne, hr, harr, ht]
    rfl
  · intro r hr harr ht
    cases hto : r.get "tools" with
    | none => simp [discoverServerTools, hne, hr, harr, hto]
    | some t =>
      rw [hto] at ht
      simp only [Option.some_bind] at ht
      simp [discoverServerTools, hne, hr, harr, hto, ht]
  · intro xs hr ht
    simp [discoverServerTools, hne, hr, ht, Json.asArr]
  · intro hr ht
    cases hto : response.get "tools" with
    | none => simp [discoverServerTools, hne, hr, hto]
    | some t =>
      rw [hto] at ht
      simp only [Option.some_bind] at ht
      simp [discoverServerTools, hne, hr, hto, ht]

/-- Witness for C2: each reply shape at a concrete response. -/
theorem discover_server_tools_spec_witness :
    discoverServerTools "s" true
        (.reply (.obj [("result", .arr [.str "a"])])) = .ok [.str "a"]
    ∧ discoverServerTools "s" true
        (.reply (.obj [("result", .obj [("tools", .arr [.str "b"])])]))
        = .ok [.str "b"]
    ∧ discoverServerTools "s" true
        (.reply (.obj [("result", .str "lone")])) = .ok [.str "lone"]
    ∧ discoverServerTools "s" true
        (.reply (.obj [("tools", .arr [.str "c"])])) = .ok [.str "c"]
    ∧ discoverServerTools "s" true (.reply (.obj [])) = .ok [] :=
  ⟨(discover_server_tools_spec "s" (.obj [("result", .arr [.str "a"])])
      (by decide)).1 [.str "a"] (by decide),
   (discover_server_tools_spec "s"
      (.obj [("result", .obj [("tools", .arr [.str "b"])])]) (by decide)).2.1
      (.obj [("tools", .arr [.str "b"])]) [.str "b"] (by decide) (by decide),
   (discover_server_tools_spec "s" (.obj [("result", .str "lone")])
      (by decide)).2.2.1 (.str "lone") (by decide) (by decide) (by decide),
   (discover_server_tools_spec "s" (.obj [("tools", .arr [.str "c"])])
      (by decide)).2.2.2.1 [.str "c"] (by decide) (by decide),
   (discover_server_tools_spec "s" (.obj []) (by decide)).2.2.2.2
      (by decide) (by decide)⟩

/-- Claim C7: after a successful spawn, a failed, timed-out or empty
discovery leaves the registry's tool list for the server as exactly the
synthetic descriptor `{id: "main", name, description}`. -/
theorem register_tool_discovery_fallback (registry : ToolRegistry)
    (toolId : String) (tool : Models.Tool) :
    (∀ e, assocLookup
        (registerToolFinish registry toolId tool (.failed e)).server_tools toolId
        = some [defaultMainTool tool.name tool.description])
    ∧ (assocLookup
        (registerToolFinish registry toolId tool .timedOut).server_tools toolId
        = some [defaultMainTool tool.name tool.description])
    ∧ (assocLookup
        (registerToolFinish registry toolId tool (.ok [])).server_tools toolId
        = some [defaultMainTool tool.name tool.description]) := by
  refine ⟨fun e => ?_, ?_, ?_⟩ <;>
    simp [registerToolFinish, assocLookup_insert, List.isEmpty]

theorem splitOnColon_ne_nil (l : List Char) : splitOnColon l ≠ [] := by
  induction l with
  | nil => simp [splitOnColon]
  | cons c rest ih =>
    simp only [splitOnColon]
    by_cases h : c = ':'
    · simp [h]
    · simp only [h, if_false]
      rcases hs : splitOnColon rest with _ | ⟨p, ps⟩ <;> simp

theorem splitOnColon_length (l : List Char) :
    (splitOnColon l).length = l.count ':' + 1 := by
  induction l with
  | nil => simp [splitOnColon]
  | cons c rest ih =>
    by_cases h : c = ':'
    · subst h
      simp [splitOnColon, ih, List.count_cons]
    · simp only [splitOnColon, h, if_false]
      rcases hs : splitOnColon rest with _ | ⟨p, ps⟩
      · exact absurd hs (splitOnColon_ne_nil rest)
      · rw [hs] at ih
        simp only [List.length_cons] at ih ⊢
        simp [List.count_cons, h, ih]

theorem executeProxyTool_format_err (running : Bool) (read : ChildRead)
    (toolId : String) (params : Json)
    (h : (splitOnColon toolId.data).length ≠ 2) :
    executeProxyTool running read toolId params
      = .error "Invalid tool_id format. Expected server_id:tool_id" := by
  unfold executeProxyTool
  rcases hs : splitOnColon toolId.data with _ | ⟨a, _ | ⟨b, _ | ⟨c, tl⟩⟩⟩
  · rfl
  · rfl
  · exact absurd (by rw [hs]; rfl) h
  · rfl

/-- Claim C10: `execute_proxy_tool` rejects a `tool_id` that does not
contain exactly one colon before any child interaction (the result is
the same error for every child state), and consequently a tool whose
child-local id contains a colon is never addressable through a proxy
id. -/
theorem execute_proxy_tool_id_format (params : Json) :
    (∀ toolId : String, toolId.data.count ':' ≠ 1 →
      ∀ running read, executeProxyTool running read toolId params
        = .error "Invalid tool_id format. Expected server_id:tool_id")
    ∧ (∀ s t : String, ':' ∈ t.data →
      ∀ running read, executeProxyTool running read (s ++ ":" ++ t) params
        = .error "Invalid tool_id format. Expected server_id:tool_id") := by
  constructor
  · intro toolId h running read
    apply executeProxyTool_format_err
    rw [splitOnColon_length]
    omega
  · intro s t ht running read
    apply executeProxyTool_format_err
    rw [splitOnColon_length]
    have hd : (s ++ ":" ++ t).data = s.data ++ [':'] ++ t.data := by
      rw [String.data_append, String.data_append]
    have hpos : 0 < t.data.count ':' := List.count_pos_iff.mpr ht
    rw [hd]
    have hcount : ((s.data ++ [':']) ++ t.data).count ':'
        = s.data.count ':' + 1 + t.data.count ':' := by
      simp [List.count_append]
      omega
    omega

/-- Witness for C10: a colon-free proxy id and a proxy id whose tool
part itself contains a colon are both rejected. -/
theorem execute_proxy_tool_id_format_witness :
    executeProxyTool true .closed "abc" .null
      = .error "Invalid tool_id format. Expected server_id:tool_id"
    ∧ executeProxyTool true .closed ("s" ++ ":" ++ "a:b") .null
      = .error "Invalid tool_id format. Expected server_id:tool_id" :=
  ⟨(execute_proxy_tool_id_format .null).1 "abc" (by decide) true .closed,
   (execute_proxy_tool_id_format .null).2 "s" "a:b" (by decide) true .closed⟩

/-- Claim C9: the catalog cache: a fresh entry is served without
network I/O; a second call within 60 s of a first call that fetched
successfully returns the same payload from the cache with no further
network hit; an absent or expired entry triggers a refetch; and a
failed refetch returns the error while leaving the cache unchanged. -/
theorem fetch_tool_from_registry_cache_spec :
    (∀ p t now outcome, now - t < CACHE_DURATION →
      fetchToolFromRegistry ⟨some p, some t⟩ now outcome
        = (.ok p, ⟨some p, some t⟩, false))
    ∧ (∀ cache t0 t1 p outcome2,
        (fetchToolFromRegistry cache t0 (.ok p)).2.2 = true →
        t1 - t0 < CACHE_DURATION →
        fetchToolFromRegistry (fetchToolFromRegistry cache t0 (.ok p)).2.1 t1
          outcome2 = (.ok p, ⟨some p, some t0⟩, false))
    ∧ (∀ now outcome,
        (fetchToolFromRegistry ⟨none, none⟩ now outcome).2.2 = true)
    ∧ (∀ p t now outcome, CACHE_DURATION ≤ now - t →
        (fetchToolFromRegistry ⟨some p, some t⟩ now outcome).2.2 = true)
    ∧ (∀ p t now e, CACHE_DURATION ≤ now - t →
        fetchToolFromRegistry ⟨some p, some t⟩ now (.error e)
          = (.error ("Failed to fetch tools from registry: " ++ e),
             ⟨some p, some t⟩, true))
    ∧ (∀ now e,
        fetchToolFromRegistry ⟨none, none⟩ now (.error e)
          = (.error ("Failed to fetch tools from registry: " ++ e),
             ⟨none, none⟩, true)) := by
  refine ⟨?_, ?_, ?_, ?_, ?_, ?_⟩
  · intro p t now outcome h
    simp [fetchToolFromRegistry, h]
  · intro cache t0 t1 p outcome2 hhit hlt
    obtain ⟨d, ts⟩ := cache
    have hcache : (fetchToolFromRegistry ⟨d, ts⟩ t0 (.ok p)).2.1
        = ⟨some p, some t0⟩ := by
      cases d with
      | none => cases ts <;> simp [fetchToolFromRegistry, fetchFresh]
      | some dv =>
        cases ts with
        | none => simp [fetchToolFromRegistry, fetchFresh]
        | some t =>
          by_cases hfresh : t0 - t < CACHE_DURATION
          · exfalso
            simp [fetchToolFromRegistry, hfresh] at hhit
          · simp [fetchToolFromRegistry, hfresh, fetchFresh]
    rw [hcache]
    simp [fetchToolFromRegistry, hlt]
  · intro now outcome
    cases outcome <;> simp [fetchToolFromRegistry, fetchFresh]
  · intro p t now outcome h
    have h2 : ¬ now - t < CACHE_DURATION := by omega
    cases outcome <;> simp [fetchToolFromRegistry, h2, fetchFresh]
  · intro p t now e h
    have h2 : ¬ now - t < CACHE_DURATION := by omega
    simp [fetchToolFromRegistry, h2, fetchFresh]
  · intro now e
    simp [fetchToolFromRegistry, fetchFresh]

/-- Witness for C9: a concrete successful fetch at time 0 followed by a
call at time 59 serves the cache without a network hit. -/
theorem fetch_tool_from_registry_cache_spec_witness :
    fetchToolFromRegistry
        (fetchToolFromRegistry ⟨none, none⟩ 0 (.ok (.str "payload"))).2.1 59
        (.error "offline")
      = (.ok (.str "payload"), ⟨some (.str "payload"), some 0⟩, false)
    ∧ fetchToolFromRegistry ⟨some (.str "payload"), some 0⟩ 60 (.error "down")
      = (.error "Failed to fetch tools from registry: down",
         ⟨some (.str "payload"), some 0⟩, true) :=
  ⟨(fetch_tool_from_registry_cache_spec).2.1 ⟨none, none⟩ 0 59 (.str "payload")
      (.error "offline") (by decide) (by decide),
   (fetch_tool_from_registry_cache_spec).2.2.2.2.1 (.str "payload") 0 60 "down"
      (by decide)⟩

/-- A registry record used to exercise the configuration-update
operations at concrete inputs. -/
def sampleTool : Models.Tool :=
  { name := "srv", description := "a server", enabled := true,
    tool_type := "node", entry_point := none,
    configuration := some ⟨"node", none⟩, distribution := none,
    config := some ⟨some [("K", "v1")], none, none⟩, authentication := none }

/-- A one-record registry state for the same purpose. -/
def sampleRegistry : ToolRegistry :=
  { tools := [("t1", sampleTool)], server_tools := [], processes := [] }

/-- Claim C5 counterexample: `update_tool_config` with a failing
persistence outcome still mutates the in-memory map and still reports
success, and its entire result is identical to the one with successful
persistence — so persistence neither precedes the in-memory change nor
gates it. -/
theorem update_tool_config_persist_cex :
    (updateToolConfig sampleRegistry "t1" (some [("K", "v2")])
        (.error "database unavailable")).1 ≠ sampleRegistry
    ∧ (updateToolConfig sampleRegistry "t1" (some [("K", "v2")])
        (.error "database unavailable")).2.success = true
    ∧ updateToolConfig sampleRegistry "t1" (some [("K", "v2")])
        (.error "database unavailable")
      = updateToolConfig sampleRegistry "t1" (some [("K", "v2")]) (.ok ()) :=
  ⟨by decide, by decide, rfl⟩

/-- Claim C5 (amended): both configuration-update operations mutate the
in-memory registry first and then attempt persistence, whose outcome
they ignore: the result never depends on the persistence outcome, the
map is mutated and success is reported even when persistence fails. -/
theorem update_ops_mutate_before_persist (state : ToolRegistry)
    (toolId : String) (reqEnv : Option (List (String × String)))
    (enabled : Bool) (restartOutcome : Except String Unit)
    (out1 out2 : Except String Unit) (tool : Models.Tool)
    (hfound : assocLookup state.tools toolId = some tool) :
    updateToolConfig state toolId reqEnv out1
      = updateToolConfig state toolId reqEnv out2
    ∧ updateToolStatus state toolId enabled restartOutcome out1
      = updateToolStatus state toolId enabled restartOutcome out2
    ∧ (updateToolConfig state toolId reqEnv out1).1.tools
      = assocInsert state.tools toolId (applyEnvUpdate tool reqEnv)
    ∧ (updateToolConfig state toolId reqEnv out1).2.success = true
    ∧ (updateToolStatus state toolId enabled restartOutcome out1).1.tools
      = assocInsert state.tools toolId { tool with enabled := enabled } := by
  refine ⟨rfl, rfl, ?_, ?_, ?_⟩
  · simp [updateToolConfig, hfound]
  · simp [updateToolConfig, hfound]
  · simp only [updateToolStatus, hfound]
    split <;> rfl

/-- Witness for C5 (amended) at the concrete one-record registry. -/
theorem update_ops_mutate_before_persist_witness :
    (updateToolConfig sampleRegistry "t1" (some [("K", "v2")]) (.ok ())).1.tools
      = assocInsert sampleRegistry.tools "t1"
          (applyEnvUpdate sampleTool (some [("K", "v2")]))
    ∧ (updateToolConfig sampleRegistry "t1" (some [("K", "v2")]) (.ok ())).2.success
      = true :=
  ⟨(update_ops_mutate_before_persist sampleRegistry "t1" (some [("K", "v2")])
      false (.ok ()) (.ok ()) (.ok ()) sampleTool (by decide)).2.2.1,
   (update_ops_mutate_before_persist sampleRegistry "t1" (some [("K", "v2")])
      false (.ok ()) (.ok ()) (.ok ()) sampleTool (by decide)).2.2.2.1⟩

/-! ### C6: proxy-id format and uniqueness -/

/-- A registry tool-list state in which one server reports two tools
with the same id. -/
def dupServerTools : List (String × List Json) :=
  [("s", [.obj [("id", .str "a")], .obj [("id", .str "a")]])]

/-- Claim C6 counterexample: `list_all_server_tools` performs no
deduplication, so a server whose discovered list contains two tools
with the same id yields two entries with the same proxy id. -/
theorem list_all_server_tools_unique_cex :
    (listAllServerTools dupServerTools).map (fun e => e.get "proxy_id")
      = [some (.str "s:a"), some (.str "s:a")]
    ∧ ¬ (proxyIds dupServerTools).Nodup := by
  constructor
  · decide
  · decide

theorem mkToolEntry_proxyId (s : String) (t : Json) :
    (mkToolEntry s t).get "proxy_id"
      = some (.str (s ++ ":" ++ toolIdStr t)) := by
  unfold mkToolEntry Json.get
  simp [assocLookup_insert]

theorem colon_append_inj (s1 : List Char) : ∀ (s2 t1 t2 : List Char),
    ':' ∉ s1 → ':' ∉ s2 → s1 ++ ':' :: t1 = s2 ++ ':' :: t2 →
    s1 = s2 ∧ t1 = t2 := by
  induction s1 with
  | nil =>
    intro s2 t1 t2 h1 h2 he
    cases s2 with
    | nil => simpa using he
    | cons d ds =>
      exfalso
      simp only [List.nil_append, List.cons_append, List.cons.injEq] at he
      exact h2 (he.1 ▸ List.mem_cons_self d ds)
  | cons c cs ih =>
    intro s2 t1 t2 h1 h2 he
    cases s2 with
    | nil =>
      exfalso
      simp only [List.nil_append, List.cons_append, List.cons.injEq] at he
      exact h1 (he.1 ▸ List.mem_cons_self c cs)
    | cons d ds =>
      simp only [List.cons_append, List.cons.injEq] at he
      obtain ⟨hcd, hrest⟩ := he
      have h1r : ':' ∉ cs := fun hm => h1 (List.mem_cons_of_mem c hm)
      have h2r : ':' ∉ ds := fun hm => h2 (List.mem_cons_of_mem d hm)
      obtain ⟨hs, htl⟩ := ih ds t1 t2 h1r h2r hrest
      exact ⟨by rw [hcd, hs], htl⟩

theorem proxy_str_inj (s1 s2 t1 t2 : String) (h1 : ':' ∉ s1.data)
    (h2 : ':' ∉ s2.data) (he : s1 ++ ":" ++ t1 = s2 ++ ":" ++ t2) :
    s1 = s2 ∧ t1 = t2 := by
  have hd : s1.data ++ ':' :: t1.data = s2.data ++ ':' :: t2.data := by
    have hcongr := congrArg String.data he
    simpa [String.data_append, List.append_assoc] using hcongr
  obtain ⟨hs, ht⟩ := colon_append_inj s1.data s2.data t1.data t2.data h1 h2 hd
  exact ⟨String.ext hs, String.ext ht⟩

theorem append_proxy_injective (s : String) :
    Function.Injective (fun x : String => s ++ ":" ++ x) := by
  intro x y he
  have hd := congrArg String.data he
  simp only [String.data_append] at hd
  exact String.ext (List.append_cancel_left hd)

/-- Claim C6 (amended): every entry of `list_all_server_tools` carries
`proxy_id = "{server_id}:{tool.id}"` (the empty string standing in for
a missing or non-string tool id); the proxy ids are pairwise distinct
provided the server ids are distinct and colon-free and each server's
tool-id strings are distinct. -/
theorem list_all_server_tools_proxy_spec
    (server_tools : List (String × List Json)) :
    (∀ e ∈ listAllServerTools server_tools, ∃ s ts t,
        (s, ts) ∈ server_tools ∧ t ∈ ts ∧ e = mkToolEntry s t
        ∧ e.get "proxy_id" = some (.str (s ++ ":" ++ toolIdStr t)))
    ∧ ((server_tools.map Prod.fst).Nodup →
       (∀ p ∈ server_tools, ':' ∉ (p.1 : String).data) →
       (∀ p ∈ server_tools, (p.2.map toolIdStr).Nodup) →
       (proxyIds server_tools).Nodup) := by
  constructor
  · intro e he
    unfold listAllServerTools at he
    rw [List.mem_flatMap] at he
    obtain ⟨p, hp, hin⟩ := he
    rw [List.mem_map] at hin
    obtain ⟨t, ht, rfl⟩ := hin
    exact ⟨p.1, p.2, t, hp, ht, rfl, mkToolEntry_proxyId p.1 t⟩
  · intro hserv hcolon htools
    unfold proxyIds
    rw [List.nodup_flatMap]
    constructor
    · intro p hp
      have hmm : p.2.map (fun t => p.1 ++ ":" ++ toolIdStr t)
          = (p.2.map toolIdStr).map (fun x => p.1 ++ ":" ++ x) := by
        rw [List.map_map]
        rfl
      rw [hmm]
      exact (htools p hp).map (append_proxy_injective p.1)
    · have hpw : server_tools.Pairwise (fun a b => a.1 ≠ b.1) := by
        rw [← List.pairwise_map]
        exact hserv
      refine hpw.imp_of_mem ?_
      intro a b ha hb hne
      intro x hxa hxb
      rw [List.mem_map] at hxa hxb
      obtain ⟨t, _, rfl⟩ := hxa
      obtain ⟨u, _, hxu⟩ := hxb
      have := proxy_str_inj b.1 a.1 (toolIdStr u) (toolIdStr t)
        (hcolon b hb) (hcolon a ha) hxu
      exact hne this.1.symm

/-- Witness for C6 (amended) on a two-server state with distinct,
colon-free ids. -/
theorem list_all_server_tools_proxy_spec_witness :
    (proxyIds [("s1", [Json.obj [("id", .str "a")], Json.obj [("id", .str "b")]]),
               ("s2", [Json.obj [("id", .str "a")]])]).Nodup :=
  (list_all_server_tools_proxy_spec
      [("s1", [Json.obj [("id", .str "a")], Json.obj [("id", .str "b")]]),
       ("s2", [Json.obj [("id", .str "a")]])]).2
    (by decide) (by decide) (by decide)

/-! ### C8: gateway error-code mapping -/

/-- The methods `handle_mcp_request` dispatches
(`handlers.rs:114-190`). -/
def knownMethods : List String :=
  ["tools/list", "tools/hidden", "tools/call", "prompts/list",
   "resources/list", "resources/read", "prompts/get", "registry/install",
   "registry/import", "registry/list", "server/config"]

/-- The dispatched methods that require `params`. -/
def paramMethods : List String :=
  ["tools/call", "resources/read", "prompts/get", "registry/install",
   "registry/import", "server/config"]

/-- A gateway state with no servers and inert collaborator outcomes,
used for concrete requests. -/
def emptyGateway : GatewayState :=
  { serverTools := [], running := false, read := .closed,
    listToolsOutcome := .ok .null, toolsHiddenOutcome := .ok .null,
    registryListOutcome := .ok .null, registryInstallOutcome := .ok .null,
    registryImportOutcome := .ok .null, serverConfigOutcome := .ok .null }

/-- Claim C8 counterexample: a `tools/call` for a name found on no
server is an operational failure on a known method with params present,
yet the gateway answers `-32601`, not `-32000`. -/
theorem handle_mcp_request_codes_cex :
    (handleMcpRequest emptyGateway (.num 1) "tools/call"
        (some (.obj [("name", .str "nosuch")]))).error
      = some { code := -32601, message := "Tool nosuch not found" } := by
  decide

/-- Claim C8 (amended): the gateway answers `-32601` for an unknown
method, `-32602` for a params-requiring method invoked without params,
and maps an error value carrying no `code` to `-32000` with its message
preserved; however a `tools/call` whose name matches no server tool
answers `-32601` rather than `-32000`. -/
theorem handle_mcp_request_error_codes (st : GatewayState) (id : Json) :
    (∀ method params, method ∉ knownMethods →
      (handleMcpRequest st id method params).error
        = some ⟨-32601, "Method " ++ method ++ " not found"⟩)
    ∧ (∀ method, method ∈ paramMethods →
      ∃ msg, (handleMcpRequest st id method none).error = some ⟨-32602, msg⟩)
    ∧ (∀ method params e msg, dispatchMcpRequest st method params = .error e →
        e.get "code" = none → e.get "message" = some (.str msg) →
        (handleMcpRequest st id method params).error = some ⟨-32000, msg⟩)
    ∧ (∀ toolName, findToolServer st.serverTools toolName = none →
        (handleMcpRequest st id "tools/call"
            (some (.obj [("name", .str toolName)]))).error
          = some ⟨-32601, "Tool " ++ toolName ++ " not found"⟩) := by
  refine ⟨?_, ?_, ?_, ?_⟩
  · intro method params h
    simp only [knownMethods, List.mem_cons, List.not_mem_nil, or_false,
      not_or] at h
    obtain ⟨h1, h2, h3, h4, h5, h6, h7, h8, h9, h10, h11⟩ := h
    simp [handleMcpRequest, dispatchMcpRequest, h1, h2, h3, h4, h5, h6, h7,
      h8, h9, h10, h11, rpcError, Json.get, assocLookup, Json.asInt,
      Json.asStr]
  · intro method hm
    simp only [paramMethods, List.mem_cons, List.not_mem_nil, or_false] at hm
    rcases hm with rfl | rfl | rfl | rfl | rfl | rfl <;>
      exact ⟨_, rfl⟩
  · intro method params e msg hd hcode hmsg
    simp [handleMcpRequest, hd, hcode, hmsg, Json.asStr]
  · intro toolName hfind
    simp [handleMcpRequest, dispatchMcpRequest, handleInvokeTool, Json.get,
      assocLookup, Json.asStr, hfind, rpcError, Json.asInt]

/-- Witness for C8 (amended): an unknown method and a params-less
`tools/call` at the concrete empty gateway. -/
theorem handle_mcp_request_error_codes_witness :
    (handleMcpRequest emptyGateway (.num 1) "no/such" none).error
      = some ⟨-32601, "Method no/such not found"⟩
    ∧ ∃ msg, (handleMcpRequest emptyGateway (.num 1) "tools/call" none).error
      = some ⟨-32602, msg⟩ :=
  ⟨(handle_mcp_request_error_codes emptyGateway (.num 1)).1 "no/such" none
      (by decide),
   (handle_mcp_request_error_codes emptyGateway (.num 1)).2.1 "tools/call"
      (by decide)⟩

/-! ### C4: env replacement in `save_tool` -/

/-- A Server Record carrying one env entry with an explicit value. -/
def envTool : Types.Tool :=
  { name := "srv", description := "d", enabled := true, tool_type := "node",
    entry_point := none,
    configuration := some
      { command := "node", args := none,
        env := some [("API_KEY",
          { description := "key", default := some "abc", required := true })] },
    distribution := none, config := none, env_configs := none }

/-- Claim C4 counterexample: the `save_tool` statement trace contains
the env delete and the env insert, but no single transaction containing
both — the statements auto-commit separately, they are not wrapped in
one transaction. -/
theorem save_tool_no_transaction_cex :
    (saveToolTxns "t1" envTool).any
        (fun txn => txn.any (DbStatement.isDeleteEnv "t1")) = true
    ∧ (saveToolTxns "t1" envTool).any
        (fun txn => txn.any DbStatement.isInsertEnv) = true
    ∧ (saveToolTxns "t1" envTool).all
        (fun txn => !(txn.any (DbStatement.isDeleteEnv "t1")
          && txn.any DbStatement.isInsertEnv)) = true := by
  refine ⟨by decide, by decide, by decide⟩

theorem envRowsOf_tool_id (toolId : String) (tool : Types.Tool) :
    ∀ r ∈ envRowsOf toolId tool, r.tool_id = toolId := by
  intro r hr
  unfold envRowsOf at hr
  cases hcfg : tool.configuration with
  | none => simp [hcfg] at hr
  | some c =>
    cases henv : c.env with
    | none => simp [hcfg, henv] at hr
    | some e =>
      simp only [hcfg, henv] at hr
      rw [List.mem_map] at hr
      obtain ⟨kv, _, rfl⟩ := hr
      rfl

theorem filter_ne_envRowsOf (toolId : String) (tool : Types.Tool) :
    (envRowsOf toolId tool).filter (fun r => r.tool_id ≠ toolId) = [] := by
  rw [List.filter_eq_nil_iff]
  intro r hr
  simp [envRowsOf_tool_id toolId tool r hr]

theorem filter_eq_envRowsOf (toolId : String) (tool : Types.Tool) :
    (envRowsOf toolId tool).filter (fun r => r.tool_id = toolId)
      = envRowsOf toolId tool := by
  rw [List.filter_eq_self]
  intro r hr
  simp [envRowsOf_tool_id toolId tool r hr]

theorem filter_ne_idem (toolId : String) (l : List DBToolEnv) :
    (l.filter (fun r => r.tool_id ≠ toolId)).filter
        (fun r => r.tool_id ≠ toolId)
      = l.filter (fun r => r.tool_id ≠ toolId) := by
  rw [List.filter_eq_self]
  intro a ha
  exact (List.mem_filter.mp ha).2

theorem upsertToolRow_twice (rows : List DBTool) (row1 row2 : DBTool)
    (h : row1.id = row2.id) :
    upsertToolRow (upsertToolRow rows row1) row2 = upsertToolRow rows row2 := by
  induction rows with
  | nil => simp [upsertToolRow, h]
  | cons r rest ih =>
    by_cases hr : r.id = row1.id
    · rw [h] at hr
      simp [upsertToolRow, hr, h]
    · have hr2 : ¬ r.id = row2.id := by rw [← h]; exact hr
      simp [upsertToolRow, hr, hr2, ih]

/-- Claim C4 (amended): saving a record twice under one id leaves the
database in exactly the state of the second save alone — the env rows
for the id are exactly those of the second record (no leftover keys of
the first), the replacement being delete-then-insert issued as separate
auto-committed statements rather than inside one transaction. -/
theorem save_tool_env_replace (db : DB) (toolId : String)
    (R1 R2 : Types.Tool) :
    saveTool (saveTool db toolId R1) toolId R2 = saveTool db toolId R2
    ∧ (saveTool (saveTool db toolId R1) toolId R2).tool_env.filter
        (fun r => r.tool_id = toolId) = envRowsOf toolId R2
    ∧ getAllTools (saveTool (saveTool db toolId R1) toolId R2)
      = getAllTools (saveTool db toolId R2) := by
  have hmain : saveTool (saveTool db toolId R1) toolId R2
      = saveTool db toolId R2 := by
    show DB.mk
        (upsertToolRow (upsertToolRow db.tools (toolUpsertRow toolId R1))
          (toolUpsertRow toolId R2))
        (((db.tool_env.filter (fun r => r.tool_id ≠ toolId)
            ++ envRowsOf toolId R1).filter (fun r => r.tool_id ≠ toolId))
          ++ envRowsOf toolId R2)
      = DB.mk (upsertToolRow db.tools (toolUpsertRow toolId R2))
          (db.tool_env.filter (fun r => r.tool_id ≠ toolId)
            ++ envRowsOf toolId R2)
    rw [upsertToolRow_twice db.tools (toolUpsertRow toolId R1)
        (toolUpsertRow toolId R2) rfl,
      List.filter_append, filter_ne_envRowsOf, List.append_nil,
      filter_ne_idem]
  refine ⟨hmain, ?_, by rw [hmain]⟩
  rw [hmain]
  show ((db.tool_env.filter (fun r => r.tool_id ≠ toolId)
      ++ envRowsOf toolId R2).filter (fun r => r.tool_id = toolId)) = _
  rw [List.filter_append, filter_eq_envRowsOf]
  have hnil : (db.tool_env.filter (fun r => r.tool_id ≠ toolId)).filter
      (fun r => r.tool_id = toolId) = [] := by
    rw [List.filter_eq_nil_iff]
    intro r hr
    have hne := (List.mem_filter.mp hr).2
    simp only [decide_eq_true_eq] at hne
    simp [hne]
  rw [hnil, List.nil_append]

/-! ### C3: persistence round trip -/

theorem foldl_congr_mem {α β : Type} (l : List α) :
    ∀ (acc : β) (f g : β → α → β), (∀ b a, a ∈ l → f b a = g b a) →
    l.foldl f acc = l.foldl g acc := by
  induction l with
  | nil => intro acc f g _; rfl
  | cons x xs ih =>
    intro acc f g h
    simp only [List.foldl_cons]
    rw [h acc x (List.mem_cons_self x xs)]
    exact ih (g acc x) f g (fun b a ha => h b a (List.mem_cons_of_mem x ha))

theorem assocLookup_append {α : Type} (a b : List (String × α)) (k : String) :
    assocLookup (a ++ b) k
      = match assocLookup a k with
        | some v => some v
        | none => assocLookup b k := by
  induction a with
  | nil => simp [assocLookup]
  | cons p rest ih =>
    obtain ⟨pk, pv⟩ := p
    by_cases hp : pk = k <;> simp [assocLookup, hp, ih]

theorem assocInsert_of_lookup_none {α : Type} (l : List (String × α))
    (k : String) (v : α) (h : assocLookup l k = none) :
    assocInsert l k v = l ++ [(k, v)] := by
  induction l with
  | nil => rfl
  | cons p rest ih =>
    obtain ⟨pk, pv⟩ := p
    by_cases hp : pk = k
    · simp [assocLookup, hp] at h
    · simp only [assocLookup, hp, if_false] at h
      simp [assocInsert, hp, ih h]

theorem foldl_assocInsert {α : Type} (pairs : List (String × α)) :
    ∀ acc, (∀ p ∈ pairs, assocLookup acc p.1 = none) →
    (pairs.map Prod.fst).Nodup →
    pairs.foldl (fun g p => assocInsert g p.1 p.2) acc = acc ++ pairs := by
  induction pairs with
  | nil => intro acc _ _; simp
  | cons p rest ih =>
    intro acc hdisj hnd
    simp only [List.foldl_cons]
    have hacc : assocLookup acc p.1 = none := hdisj p (List.mem_cons_self p rest)
    rw [assocInsert_of_lookup_none acc p.1 p.2 hacc]
    simp only [List.map_cons, List.nodup_cons] at hnd
    have hdisj2 : ∀ q ∈ rest, assocLookup (acc ++ [p]) q.1 = none := by
      intro q hq
      have h1 : assocLookup acc q.1 = none := hdisj q (List.mem_cons_of_mem p hq)
      have h2 : ¬ p.1 = q.1 := by
        intro he
        exact hnd.1 (he ▸ List.mem_map_of_mem Prod.fst hq)
      rw [assocLookup_append, h1]
      simp [assocLookup, h2]
    rw [ih (acc ++ [p]) hdisj2 hnd.2]
    simp

theorem assocRemove_lookup_ne {α : Type} (l : List (String × α))
    (k k' : String) (h : k' ≠ k) :
    assocLookup (assocRemove l k) k' = assocLookup l k' := by
  induction l with
  | nil => rfl
  | cons p rest ih =>
    obtain ⟨pk, pv⟩ := p
    show assocLookup (((pk, pv) :: rest).filter (fun q => q.1 ≠ k)) k' = _
    by_cases hp : pk = k
    · rw [List.filter_cons_of_neg (by simp [hp])]
      subst hp
      show assocLookup (assocRemove rest pk) k' = _
      rw [ih]
      simp [assocLookup, Ne.symm h]
    · rw [List.filter_cons_of_pos (by simpa using hp)]
      show assocLookup ((pk, pv) :: assocRemove rest k) k' = _
      by_cases hp2 : pk = k'
      · simp [assocLookup, hp2]
      · simp only [assocLookup, if_neg hp2]
        exact ih

theorem buildEnvGroup_lookup_aux (rows : List DBToolEnv) :
    ∀ (groups : List (String × List (String × Types.ToolEnvironment)))
      (key : String),
    (assocLookup
        (rows.foldl
          (fun groups r =>
            assocInsert groups r.tool_id
              (assocInsert ((assocLookup groups r.tool_id).getD [])
                r.env_key (envOfRow r)))
          groups)
        key).getD []
      = (rows.filter (fun r => r.tool_id = key)).foldl
          (fun g r => assocInsert g r.env_key (envOfRow r))
          ((assocLookup groups key).getD []) := by
  induction rows with
  | nil => intro groups key; simp
  | cons r rest ih =>
    intro groups key
    simp only [List.foldl_cons]
    rw [ih]
    by_cases hk : r.tool_id = key
    · rw [List.filter_cons_of_pos (by simp [hk])]
      rw [List.foldl_cons]
      congr 1
      rw [← hk, assocLookup_insert]
      rfl
    · rw [List.filter_cons_of_neg (by simp [hk])]
      congr 2
      exact assocLookup_insert_ne groups r.tool_id key _ (fun h => hk h.symm)

theorem upsertToolRow_shape (rows : List DBTool) (row : DBTool) :
    ∃ pre suf, upsertToolRow rows row = pre ++ row :: suf
      ∧ ∀ r ∈ pre, r.id ≠ row.id := by
  induction rows with
  | nil => exact ⟨[], [], rfl, by simp⟩
  | cons r rest ih =>
    by_cases hr : r.id = row.id
    · exact ⟨[], rest, by simp [upsertToolRow, hr], by simp⟩
    · obtain ⟨pre, suf, heq, hpre⟩ := ih
      refine ⟨r :: pre, suf, by simp [upsertToolRow, hr, heq], ?_⟩
      intro x hx
      rcases List.mem_cons.mp hx with rfl | hx2
      · exact hr
      · exact hpre x hx2

theorem getAllToolsGo_lookup (pre : List DBTool) :
    ∀ (row : DBTool) (suf : List DBTool)
      (groups : List (String × List (String × Types.ToolEnvironment))),
    (∀ r ∈ pre, r.id ≠ row.id) →
    assocLookup (getAllToolsGo (pre ++ row :: suf) groups) row.id
      = some (dbToolToTool row ((assocLookup groups row.id).getD [])) := by
  induction pre with
  | nil =>
    intro row suf groups _
    simp [getAllToolsGo, assocLookup]
  | cons p pre2 ih =>
    intro row suf groups hpre
    have hp : p.id ≠ row.id := hpre p (List.mem_cons_self p pre2)
    simp only [List.cons_append, getAllToolsGo, List.append_eq]
    simp only [assocLookup, if_neg hp]
    rw [ih row suf _ (fun r hr => hpre r (List.mem_cons_of_mem p hr))]
    rw [assocRemove_lookup_ne groups p.id row.id (Ne.symm hp)]

theorem dbToolToTool_fields (R : Types.Tool) (c : Types.ToolConfiguration)
    (toolId : String) (hc : R.configuration = some c)
    (hcfg : R.config = none) (hec : R.env_configs = none) :
    (c.env = none → dbToolToTool (toolUpsertRow toolId R) [] = R)
    ∧ (∀ e, c.env = some e → e ≠ [] →
        dbToolToTool (toolUpsertRow toolId R) e = R) := by
  obtain ⟨nm, ds, en, tt, ep, cfg, dist, cf, ec⟩ := R
  simp only at hc hcfg hec
  subst hc hcfg hec
  obtain ⟨cmd, args, envc⟩ := c
  constructor
  · intro he
    simp only at he
    subst he
    by_cases hcmd : cmd = "" <;>
      cases dist <;>
        simp [dbToolToTool, toolUpsertRow, hcmd]
  · intro e he hne
    simp only at he
    subst he
    by_cases hcmd : cmd = "" <;>
      cases dist <;>
        simp [dbToolToTool, toolUpsertRow, hcmd, hne]

/-- Claim C3 (amended): the round trip through `save_tool` and
`get_all_tools` restores the record exactly, provided the record's
`configuration` is present, its transient `config`/`env_configs` fields
are empty, and its env map (when present) is non-empty with every entry
carrying an explicit value and distinct keys.  (Outside these
conditions the store returns a normalised record: the counterexample.) -/
theorem save_tool_roundtrip (db : DB) (toolId : String) (R : Types.Tool)
    (c : Types.ToolConfiguration) (hc : R.configuration = some c)
    (hcfg : R.config = none) (hec : R.env_configs = none)
    (henv : c.env = none ∨ ∃ e, c.env = some e ∧ e ≠ []
      ∧ (∀ kv ∈ e, kv.2.default ≠ none) ∧ (e.map Prod.fst).Nodup) :
    assocLookup (getAllTools (saveTool db toolId R)) toolId = some R := by
  obtain ⟨pre, suf, hshape, hpre⟩ :=
    upsertToolRow_shape db.tools (toolUpsertRow toolId R)
  have hid : (toolUpsertRow toolId R).id = toolId := rfl
  have henvgrp :
      (assocLookup
        (buildEnvGroup ((saveTool db toolId R).tool_env)) toolId).getD []
      = (envRowsOf toolId R).foldl
          (fun g r => assocInsert g r.env_key (envOfRow r)) [] := by
    unfold buildEnvGroup
    rw [buildEnvGroup_lookup_aux]
    show ((db.tool_env.filter (fun r => r.tool_id ≠ toolId)
        ++ envRowsOf toolId R).filter (fun r => r.tool_id = toolId)).foldl
        _ _ = _
    rw [List.filter_append, filter_eq_envRowsOf]
    have hnil : (db.tool_env.filter (fun r => r.tool_id ≠ toolId)).filter
        (fun r => r.tool_id = toolId) = [] := by
      rw [List.filter_eq_nil_iff]
      intro r hr
      have hne := (List.mem_filter.mp hr).2
      simp only [decide_eq_true_eq] at hne
      simp [hne]
    rw [hnil, List.nil_append]
    rfl
  have hgoal : assocLookup (getAllTools (saveTool db toolId R)) toolId
      = some (dbToolToTool (toolUpsertRow toolId R)
          ((envRowsOf toolId R).foldl
            (fun g r => assocInsert g r.env_key (envOfRow r)) [])) := by
    have hlookup := getAllToolsGo_lookup pre (toolUpsertRow toolId R) suf
      (buildEnvGroup (saveTool db toolId R).tool_env) hpre
    rw [hid] at hlookup
    unfold getAllTools
    rw [show (saveTool db toolId R).tools
        = pre ++ toolUpsertRow toolId R :: suf from hshape]
    rw [hlookup, henvgrp]
  rw [hgoal]
  rcases henv with hnone | ⟨e, he, hne, hdef, hnd⟩
  · have hrows : envRowsOf toolId R = [] := by
      simp only [envRowsOf, hc, hnone]
    rw [hrows]
    exact congrArg some
      ((dbToolToTool_fields R c toolId hc hcfg hec).1 hnone)
  · have hrows : envRowsOf toolId R
        = e.map (fun kv =>
            ({ tool_id := toolId, env_key := kv.1,
               env_value := kv.2.default.getD "",
               env_description := kv.2.description,
               env_required := kv.2.required } : DBToolEnv)) := by
      simp only [envRowsOf, hc, he]
    rw [hrows]
    have hfold :
        (e.map (fun kv =>
            ({ tool_id := toolId, env_key := kv.1,
               env_value := kv.2.default.getD "",
               env_description := kv.2.description,
               env_required := kv.2.required } : DBToolEnv))).foldl
          (fun g r => assocInsert g r.env_key (envOfRow r)) [] = e := by
      rw [List.foldl_map]
      have hstep : ∀ (g : List (String × Types.ToolEnvironment)) (kv : String × Types.ToolEnvironment),
          kv ∈ e →
          assocInsert g kv.1 (envOfRow
            { tool_id := toolId, env_key := kv.1,
              env_value := kv.2.default.getD "",
              env_description := kv.2.description,
              env_required := kv.2.required })
          = assocInsert g kv.1 kv.2 := by
        intro g kv hkv
        have hdvx : ∃ v, kv.2.default = some v := by
          cases hx : kv.2.default with
          | none => exact absurd hx (hdef kv hkv)
          | some v => exact ⟨v, rfl⟩
        obtain ⟨v, hdv⟩ := hdvx
        have henvof : envOfRow
            { tool_id := toolId, env_key := kv.1,
              env_value := kv.2.default.getD "",
              env_description := kv.2.description,
              env_required := kv.2.required } = kv.2 := by
          simp only [envOfRow, hdv, Option.getD_some]
          rw [← hdv]
        rw [henvof]
      calc e.foldl (fun g kv => assocInsert g kv.1 (envOfRow
            { tool_id := toolId, env_key := kv.1,
              env_value := kv.2.default.getD "",
              env_description := kv.2.description,
              env_required := kv.2.required })) []
          = e.foldl (fun g kv => assocInsert g kv.1 kv.2) [] := by
            apply foldl_congr_mem
            intro b kv hkv
            exact hstep b kv hkv
        _ = e := by
            have := foldl_assocInsert e [] (by intro p _; rfl) hnd
            simpa using this
    rw [hfold]
    exact congrArg some
      ((dbToolToTool_fields R c toolId hc hcfg hec).2 e he hne)

/-- A Server Record whose env entry has no explicit value. -/
def missingValueTool : Types.Tool :=
  { name := "srv", description := "d", enabled := true, tool_type := "node",
    entry_point := none,
    configuration := some
      { command := "node", args := none,
        env := some [("API_KEY",
          { description := "key", default := none, required := false })] },
    distribution := none, config := none, env_configs := none }

/-- Claim C3 counterexample: the round trip is not the identity on
every valid record — an env entry stored without an explicit value
comes back normalised to the empty-string value, so the retrieved
record differs from the saved one. -/
theorem save_tool_roundtrip_cex :
    assocLookup (getAllTools (saveTool ⟨[], []⟩ "t1" missingValueTool)) "t1"
      ≠ some missingValueTool
    ∧ assocLookup (getAllTools (saveTool ⟨[], []⟩ "t1" missingValueTool)) "t1"
      = some
        { name := "srv", description := "d", enabled := true,
          tool_type := "node", entry_point := none,
          configuration := some
            { command := "node", args := none,
              env := some [("API_KEY",
                { description := "key", default := some "",
                  required := false })] },
          distribution := none, config := none, env_configs := none } :=
  ⟨by decide, by decide⟩

/-- Witness for C3 (amended) at a concrete record with an explicit env
value. -/
theorem save_tool_roundtrip_witness :
    assocLookup (getAllTools (saveTool ⟨[], []⟩ "t1" envTool)) "t1"
      = some envTool :=
  save_tool_roundtrip ⟨[], []⟩ "t1" envTool
    { command := "node", args := none,
      env := some [("API_KEY",
        { description := "key", default := some "abc", required := true })] }
    rfl rfl rfl
    (Or.inr ⟨[("API_KEY",
        { description := "key", default := some "abc", required := true })],
      rfl, by decide, by decide, by decide⟩)

end Dockmaster
